import Mathlib

/-!
Shallow embedding of `src/08-sample-data/data_generator.py`
(class `ManufacturingDataGenerator`), a synthetic manufacturing-data
generator.  Python floats are modelled as rationals; every call to the
process-wide pseudorandom source is modelled as a lookup in an explicit
random oracle passed to the function, so each embedded function is a
deterministic function of (configuration, timestamp, oracle).  Calendar
facts that Python obtains from `datetime` (weekday, day-of-year) are
supplied as explicit fields/functions of the generator, and `np.sin` is
supplied as an abstract function `sn` (the claims about the seasonal
term only concern how its value enters the computation).
-/

namespace DataGenerator

/-- Python's `round` (round-half-to-even, "banker's rounding") on a
rational, to an integer. -/
def roundHalfEven (q : ℚ) : ℤ :=
  if q - ⌊q⌋ < 1/2 then ⌊q⌋
  else if 1/2 < q - ⌊q⌋ then ⌊q⌋ + 1
  else if 2 ∣ ⌊q⌋ then ⌊q⌋ else ⌊q⌋ + 1

/-- Python's `round(q, ndigits)` for a nonnegative number of digits. -/
def pyRound (ndigits : ℕ) (q : ℚ) : ℚ :=
  (roundHalfEven (q * 10 ^ ndigits) : ℚ) / 10 ^ ndigits

/-- The sensor types appearing in `_create_sensor_config`. -/
inductive SensorType where
  | temperature
  | humidity
  | pressure
  | vibration
deriving DecidableEq

/-- One entry of the list returned by `_create_sensor_config`. -/
structure SensorConfig where
  sensor_id : String
  equipment_id : String
  sensorType : SensorType
  location : String
  normal_range : ℚ × ℚ
  alert_threshold : ℚ × ℚ
  error_rate : ℚ

/-- One entry of the list returned by `_create_equipment_config`. -/
structure EquipmentConfig where
  equipment_id : String
  name : String
  equipmentType : String
  location : String
  status : String

/-- The facts about a `datetime` timestamp that the generator reads:
`date` is the day offset from `start_date` (the timestamps of one
generated day share it), `hour`/`minute` the time of day, `weekday`
Python's `datetime.weekday()` (0 = Monday), `dayOfYear` Python's
`timetuple().tm_yday`. -/
structure Timestamp where
  date : ℕ
  hour : ℕ
  minute : ℕ
  weekday : ℕ
  dayOfYear : ℕ
deriving DecidableEq

/-- The random draws consumed while generating one sensor reading.
`uniform a b` models `random.uniform(a, b)`, `normalDraw` the value of
`np.random.normal(0, 0.1)`, `roll` the value of `random.random()`, and
`choice l` models `random.choice(l)`. -/
structure Rand where
  uniform : ℚ → ℚ → ℚ
  normalDraw : ℚ
  roll : ℚ
  choice : List ℚ → ℚ

/-- The contracts of Python's random primitives: `random.uniform(a, b)`
lands in `[a, b]`, `random.random()` in `[0, 1)`, and `random.choice`
returns an element of its argument. -/
def Rand.Valid (r : Rand) : Prop :=
  (∀ a b : ℚ, a ≤ b → a ≤ r.uniform a b ∧ r.uniform a b ≤ b) ∧
  (0 ≤ r.roll ∧ r.roll < 1) ∧
  (∀ l : List ℚ, l ≠ [] → r.choice l ∈ l)

/-- `_create_sensor_config` (lines 23-71). -/
def create_sensor_config : List SensorConfig :=
  [ { sensor_id := "TEMP_001", equipment_id := "EQ_FURNACE_01",
      sensorType := SensorType.temperature, location := "Production Line A",
      normal_range := (20, 25), alert_threshold := (15, 35),
      error_rate := 2/100 },
    { sensor_id := "TEMP_002", equipment_id := "EQ_FURNACE_02",
      sensorType := SensorType.temperature, location := "Production Line B",
      normal_range := (22, 28), alert_threshold := (18, 40),
      error_rate := 15/1000 },
    { sensor_id := "HUM_001", equipment_id := "EQ_CHAMBER_01",
      sensorType := SensorType.humidity, location := "Quality Control",
      normal_range := (45, 55), alert_threshold := (30, 70),
      error_rate := 1/100 },
    { sensor_id := "PRESS_001", equipment_id := "EQ_COMPRESSOR_01",
      sensorType := SensorType.pressure, location := "Pneumatic System",
      normal_range := (100, 120), alert_threshold := (80, 150),
      error_rate := 25/1000 },
    { sensor_id := "VIB_001", equipment_id := "EQ_MOTOR_01",
      sensorType := SensorType.vibration, location := "Motor Assembly",
      normal_range := (1/10, 3/10), alert_threshold := (5/100, 8/10),
      error_rate := 3/100 } ]

/-- `_create_equipment_config` (lines 73-111). -/
def create_equipment_config : List EquipmentConfig :=
  [ { equipment_id := "EQ_FURNACE_01", name := "Industrial Furnace Unit 1",
      equipmentType := "Heating Equipment", location := "Production Line A",
      status := "operational" },
    { equipment_id := "EQ_FURNACE_02", name := "Industrial Furnace Unit 2",
      equipmentType := "Heating Equipment", location := "Production Line B",
      status := "operational" },
    { equipment_id := "EQ_CHAMBER_01", name := "Environmental Chamber",
      equipmentType := "Climate Control", location := "Quality Control",
      status := "operational" },
    { equipment_id := "EQ_COMPRESSOR_01", name := "Air Compressor System",
      equipmentType := "Pneumatic Equipment", location := "Pneumatic System",
      status := "operational" },
    { equipment_id := "EQ_MOTOR_01", name := "Primary Drive Motor",
      equipmentType := "Motor Assembly", location := "Motor Assembly",
      status := "operational" } ]

/-- `_generate_realistic_value` (lines 182-205).  `sn d` stands for
`np.sin(2 * np.pi * d / 365)` evaluated at day-of-year `d`. -/
def generate_realistic_value (sn : ℕ → ℚ) (r : Rand) (sensor : SensorConfig)
    (ts : Timestamp) : ℚ :=
  let base0 := r.uniform sensor.normal_range.1 sensor.normal_range.2
  let base1 :=
    if sensor.sensorType = SensorType.temperature ∧ 6 ≤ ts.hour ∧ ts.hour ≤ 18
    then base0 + r.uniform 1 3 else base0
  let base2 := if 5 ≤ ts.weekday then base1 * (95/100) else base1
  if sensor.sensorType = SensorType.temperature
  then base2 + 2 * sn ts.dayOfYear else base2

/-- `_calculate_quality_score` (lines 207-217). -/
def calculate_quality_score (r : Rand) (sensor : SensorConfig) (value : ℚ) : ℚ :=
  if sensor.normal_range.1 ≤ value ∧ value ≤ sensor.normal_range.2 then
    r.uniform (95/100) 1
  else if sensor.alert_threshold.1 ≤ value ∧ value ≤ sensor.alert_threshold.2 then
    r.uniform (7/10) (9/10)
  else
    r.uniform (1/10) (6/10)

/-- A row of the DataFrame built by `generate_sensor_data` (lines
149-159).  The per-type extra columns (lines 161-176) duplicate `value`
or add independent noise and are referenced by no claim, so they are
not modelled. -/
structure SensorRecord where
  sensor_id : String
  equipment_id : String
  timestamp : Timestamp
  value : ℚ
  sensorType : SensorType
  location : String
  status : String
  quality_score : ℚ
  is_anomaly : Bool

/-- The body of the innermost loop of `generate_sensor_data`
(lines 131-178): one sensor reading from one sensor at one timestamp. -/
def makeReading (sn : ℕ → ℚ) (r : Rand) (sensor : SensorConfig)
    (ts : Timestamp) : SensorRecord :=
  let base_value := generate_realistic_value sn r sensor ts
  let noise := r.normalDraw
  let value0 := base_value + noise
  let is_anomaly : Bool := r.roll < sensor.error_rate
  let value :=
    if is_anomaly then base_value * r.choice [-2, -(3/2), 3/2, 2] else value0
  let quality_score := calculate_quality_score r sensor value
  { sensor_id := sensor.sensor_id
    equipment_id := sensor.equipment_id
    timestamp := ts
    value := pyRound 3 value
    sensorType := sensor.sensorType
    location := sensor.location
    status := if is_anomaly then "error" else "normal"
    quality_score := pyRound 3 quality_score
    is_anomaly := is_anomaly }

/-- The generator's state from `__init__`: the day count, the two
static configuration tables, and the calendar data of `start_date`
(`weekdayOf d` / `dayOfYearOf d` are `weekday()` / `tm_yday` of
`start_date + d days`). -/
structure Generator where
  num_days : ℕ
  sensors : List SensorConfig
  equipment : List EquipmentConfig
  weekdayOf : ℕ → ℕ
  dayOfYearOf : ℕ → ℕ

/-- `ManufacturingDataGenerator(start_date, num_days)`: the sensor and
equipment tables are the built-in ones. -/
def mkGenerator (num_days : ℕ) (weekdayOf dayOfYearOf : ℕ → ℕ) : Generator :=
  { num_days := num_days, sensors := create_sensor_config,
    equipment := create_equipment_config,
    weekdayOf := weekdayOf, dayOfYearOf := dayOfYearOf }

/-- The timestamp `start_date + day days + minute minutes` as seen by
the generator. -/
def mkTimestamp (g : Generator) (day minute : ℕ) : Timestamp :=
  { date := day, hour := minute / 60, minute := minute % 60,
    weekday := g.weekdayOf day, dayOfYear := g.dayOfYearOf day }

/-- Number of elements of Python's `range(0, stop, step)` for positive
`step`. -/
def pyRangeLen (stop step : ℕ) : ℕ := (stop + step - 1) / step

/-- `generate_sensor_data` (lines 113-180).  The oracle `rand day
minute si` holds the draws consumed by the reading of sensor number
`si` at minute `minute` of day `day`.  Python's `range(0, 1440, step)`
raises `ValueError` when `step = 1440 // records_per_day` is zero (and
`1440 // 0` raises `ZeroDivisionError`); both are modelled by `none`. -/
def generate_sensor_data (g : Generator) (sn : ℕ → ℚ)
    (rand : ℕ → ℕ → ℕ → Rand) (records_per_day : ℕ) :
    Option (List SensorRecord) :=
  let step := 1440 / records_per_day
  if step = 0 then none
  else some <|
    (List.range g.num_days).flatMap fun day =>
      (List.range' 0 (pyRangeLen 1440 step) step).flatMap fun minute =>
        g.sensors.enum.map fun p =>
          makeReading sn (rand day minute p.1) p.2 (mkTimestamp g day minute)

/-- The four log levels of `generate_equipment_logs`. -/
inductive LogLevel where
  | info
  | warning
  | error
  | debug
deriving DecidableEq

/-- The message template table of `_generate_log_entry` (lines 249-278),
five templates per level. -/
def log_templates : LogLevel → List String
  | LogLevel.info =>
      [ "Equipment startup completed successfully",
        "Maintenance cycle completed",
        "Performance metrics within normal range",
        "System health check passed",
        "Configuration updated successfully" ]
  | LogLevel.warning =>
      [ "Temperature approaching upper threshold",
        "Vibration levels elevated but within limits",
        "Maintenance due within 24 hours",
        "Performance efficiency below optimal",
        "Sensor calibration recommended" ]
  | LogLevel.error =>
      [ "Temperature exceeded safety threshold",
        "Unexpected shutdown detected",
        "Sensor malfunction detected",
        "Communication timeout with control system",
        "Safety interlock triggered" ]
  | LogLevel.debug =>
      [ "Sensor reading validation completed",
        "Control loop iteration completed",
        "Memory usage check completed",
        "Network heartbeat successful",
        "Configuration parameter updated" ]

/-- The random draws consumed while generating one log entry.
`levelChoice` models `np.random.choice(levels, p=weights)` (no claim
concerns the weights, so the weighted draw is abstract), `choiceStr`
models `random.choice` on string lists, `randint a b` Python's
inclusive `random.randint(a, b)`, `uniform` `random.uniform`. -/
structure LogRand where
  levelChoice : LogLevel
  choiceStr : List String → String
  randint : ℕ → ℕ → ℕ
  uniform : ℚ → ℚ → ℚ

/-- One element of the list built by `generate_equipment_logs`.  The
timestamp is `current_date + random_seconds seconds`, recorded as the
day offset plus the second-of-day. -/
structure LogEntry where
  equipment_id : String
  equipment_name : String
  timestampDay : ℕ
  timestampSecond : ℕ
  log_level : LogLevel
  message : String
  location : String
  equipmentType : String
  status : String
  error_code : Option ℕ
  severity : Option String
  warning_code : Option ℕ
  cpu_usage : ℚ
  memory_usage : ℚ
  network_latency : ℚ

/-- `_generate_log_entry` (lines 247-312). -/
def generate_log_entry (r : LogRand) (equipment : EquipmentConfig)
    (day second : ℕ) : LogEntry :=
  let log_level := r.levelChoice
  let message := r.choiceStr (log_templates log_level)
  { equipment_id := equipment.equipment_id
    equipment_name := equipment.name
    timestampDay := day
    timestampSecond := second
    log_level := log_level
    message := message
    location := equipment.location
    equipmentType := equipment.equipmentType
    status := equipment.status
    error_code :=
      if log_level = LogLevel.error then some (r.randint 1000 9999) else none
    severity :=
      if log_level = LogLevel.error
      then some (r.choiceStr ["LOW", "MEDIUM", "HIGH", "CRITICAL"]) else none
    warning_code :=
      if log_level = LogLevel.warning then some (r.randint 100 999) else none
    cpu_usage := pyRound 2 (r.uniform 10 90)
    memory_usage := pyRound 2 (r.uniform 20 80)
    network_latency := pyRound 2 (r.uniform 1 50) }

/-- `generate_equipment_logs` (lines 219-245).  The oracle
`rand day ei k` holds the draws of log number `k` of equipment number
`ei` on day `day`. -/
def generate_equipment_logs (g : Generator) (rand : ℕ → ℕ → ℕ → LogRand)
    (logs_per_day : ℕ) : List LogEntry :=
  (List.range g.num_days).flatMap fun day =>
    g.equipment.enum.flatMap fun p =>
      (List.range logs_per_day).map fun k =>
        let r := rand day p.1 k
        let random_seconds := r.randint 0 86399
        generate_log_entry r p.2 day random_seconds

/-- The random draws consumed while generating one quality metric:
`uniform` models `random.uniform`, `randint a b` Python's inclusive
`random.randint(a, b)` (on day counts), `choiceBool` the value of
`random.choice([True, False])`. -/
structure QRand where
  uniform : ℚ → ℚ → ℚ
  randint : ℤ → ℤ → ℤ
  choiceBool : Bool

/-- The contract of `random.randint(a, b)`: an integer in `[a, b]`
(both ends inclusive). -/
def QRand.Valid (r : QRand) : Prop :=
  ∀ a b : ℤ, a ≤ b → a ≤ r.randint a b ∧ r.randint a b ≤ b

/-- A row of the DataFrame built by `generate_quality_metrics`.  All
dates are day numbers relative to `start_date` (so `date` of the row
for day `d` is `d` itself, an integer so that maintenance offsets can
reach before `start_date`). -/
structure QualityMetric where
  equipment_id : String
  date : ℤ
  location : String
  uptime_hours : ℚ
  downtime_hours : ℚ
  efficiency_percentage : ℚ
  error_count : ℤ
  warning_count : ℤ
  maintenance_required : Bool
  last_maintenance_date : ℤ
  next_maintenance_date : ℤ
  production_units : ℤ
  quality_score : ℚ

/-- The body of the inner loop of `generate_quality_metrics`
(lines 322-338): one daily metric for one equipment.  `current_date`
is the day number relative to `start_date`. -/
def makeQualityMetric (r : QRand) (equipment : EquipmentConfig)
    (current_date : ℤ) : QualityMetric :=
  { equipment_id := equipment.equipment_id
    date := current_date
    location := equipment.location
    uptime_hours := pyRound 2 (r.uniform 20 24)
    downtime_hours := pyRound 2 (r.uniform 0 4)
    efficiency_percentage := pyRound 2 (r.uniform 85 98)
    error_count := r.randint 0 5
    warning_count := r.randint 0 15
    maintenance_required := r.choiceBool
    last_maintenance_date := current_date - r.randint 1 30
    next_maintenance_date := current_date + r.randint 1 30
    production_units := r.randint 800 1200
    quality_score := pyRound 3 (r.uniform (9/10) 1) }

/-- `generate_quality_metrics` (lines 314-340).  The oracle
`rand day ei` holds the draws of the metric of equipment number `ei`
on day `day`. -/
def generate_quality_metrics (g : Generator) (rand : ℕ → ℕ → QRand) :
    List QualityMetric :=
  (List.range g.num_days).flatMap fun day =>
    g.equipment.enum.map fun p =>
      makeQualityMetric (rand day p.1) p.2 (day : ℤ)

/-- A value of a pandas DataFrame column, as far as `save_data` is
concerned: the sensor rows store their timestamp as a `strftime`
string (line 152), while the `.dt` accessor demands datetimelike
values. -/
inductive PdValue where
  | pdStr : String → PdValue
  | pdDatetime : Timestamp → PdValue

/-- Whether a column value is datetimelike. -/
def PdValue.isDatetime : PdValue → Bool
  | PdValue.pdDatetime _ => true
  | PdValue.pdStr _ => false

/-- The date (day offset) of a datetimelike column value. -/
def PdValue.dateOf : PdValue → Option ℕ
  | PdValue.pdDatetime ts => some ts.date
  | PdValue.pdStr _ => none

/-- `timestamp.strftime("%Y-%m-%d %H:%M:%S")` (line 152), rendered
from the day offset and time of day (the embedding carries no calendar
strings; all that matters downstream is that the result is a string,
not a datetime). -/
def strftimeTimestamp (ts : Timestamp) : String :=
  toString ts.date ++ " " ++ toString ts.hour ++ ":" ++ toString ts.minute ++ ":00"

/-- The `timestamp` column of the sensor DataFrame: line 152 stores
the `strftime` rendering, so the column holds strings (object dtype),
not datetimes. -/
def sensorTimestampColumn (df : List SensorRecord) : List PdValue :=
  df.map fun rec => PdValue.pdStr (strftimeTimestamp rec.timestamp)

/-- The pandas `series.dt.date` accessor: it yields the dates of a
datetimelike column and raises
`AttributeError: Can only use .dt accessor with datetimelike values`
on any other column (in particular on a column of strings). -/
def seriesDtDate (col : List PdValue) : Except String (List ℕ) :=
  if col.all PdValue.isDatetime then Except.ok (col.filterMap PdValue.dateOf)
  else Except.error "AttributeError: Can only use .dt accessor with datetimelike values"

/-- The date key that the partition loop of lines 352-357 is written
against: the day offset of the row's timestamp.  In the program this
key is never computed, because the `.dt.date` extraction raises first
(the column is strings, line 152); it is the key of the counterfactual
run on a datetimelike column. -/
def sensorDateKey (rec : SensorRecord) : ℕ := rec.timestamp.date

/-- The date key used by `save_data` to partition log entries
(`log['timestamp'][:10]`, line 368): the day offset of the entry's
timestamp. -/
def logDateKey (log : LogEntry) : ℕ := log.timestampDay

/-- What `sensor_df['timestamp'].dt.date.unique()` (line 352) would
return on a datetimelike column: the distinct date keys of the rows,
in order of first occurrence.  Unreachable in the program (the `.dt`
accessor raises on the string column first). -/
def uniqueDates (l : List SensorRecord) : List ℕ :=
  l.foldl
    (fun acc rec => if sensorDateKey rec ∈ acc then acc else acc ++ [sensorDateKey rec])
    []

/-- The per-date sensor groups that lines 352-357 would write on a
datetimelike column: for each distinct date, the rows whose key equals
that date (`sensor_df[sensor_df['timestamp'].dt.date == date]`).
Unreachable in the program (the `.dt` accessor raises first). -/
def sensorPartition (l : List SensorRecord) : List (List SensorRecord) :=
  (uniqueDates l).map fun d => l.filter fun rec => sensorDateKey rec = d

/-- The sensor-partition step of `save_data` (lines 351-357) as the
program actually executes it: evaluating
`sensor_df['timestamp'].dt.date` comes first and raises
`AttributeError` on the string timestamp column, so for the real
DataFrame the partition loop never runs; only on a counterfactual
datetimelike column would the per-date groups be produced. -/
def save_data_sensor_partition (df : List SensorRecord) :
    Except String (List (List SensorRecord)) :=
  match seriesDtDate (sensorTimestampColumn df) with
  | Except.error e => Except.error e
  | Except.ok _ => Except.ok (sensorPartition df)

/-- One step of building `logs_by_date` (lines 366-371): append `log`
to the group of its date if the date is already a key of the dict,
otherwise add a new singleton group (Python dicts preserve insertion
order). -/
def insertLog : List (ℕ × List LogEntry) → ℕ → LogEntry →
    List (ℕ × List LogEntry)
  | [], d, log => [(d, [log])]
  | (k, grp) :: t, d, log =>
      if k = d then (k, grp ++ [log]) :: t
      else (k, grp) :: insertLog t d log

/-- The `logs_by_date` dict of `save_data` (lines 366-371).  In the
program these lines are never reached: `save_data` raises at line 352,
before the log partitioning starts. -/
def logsByDate (logs : List LogEntry) : List (ℕ × List LogEntry) :=
  logs.foldl (fun acc log => insertLog acc (logDateKey log) log) []

/-! Concrete random oracles used to evaluate the development on small
inputs: every uniform draw returns its lower endpoint, every roll
returns 0, every choice returns the first element. -/

/-- A concrete sensor-reading oracle. -/
def lowRand : Rand :=
  { uniform := fun a _ => a, normalDraw := 0, roll := 0,
    choice := fun l => l.headD 0 }

/-- A concrete quality-metric oracle. -/
def lowQRand : QRand :=
  { uniform := fun a _ => a, randint := fun a _ => a, choiceBool := false }

/-- A concrete log-entry oracle. -/
def lowLogRand : LogRand :=
  { levelChoice := LogLevel.info, choiceStr := fun l => l.headD "",
    randint := fun a _ => a, uniform := fun a _ => a }

/-- The `TEMP_001` sensor of the built-in table, as a standalone
fixture. -/
def wSensor : SensorConfig :=
  { sensor_id := "TEMP_001", equipment_id := "EQ_FURNACE_01",
    sensorType := SensorType.temperature, location := "Production Line A",
    normal_range := (20, 25), alert_threshold := (15, 35),
    error_rate := 2/100 }

/-- The `EQ_FURNACE_01` equipment of the built-in table, as a
standalone fixture. -/
def wEquip : EquipmentConfig :=
  { equipment_id := "EQ_FURNACE_01", name := "Industrial Furnace Unit 1",
    equipmentType := "Heating Equipment", location := "Production Line A",
    status := "operational" }

/-- A single-sensor, zero-equipment generator used as a small concrete
input. -/
def wGen : Generator :=
  { num_days := 1
    sensors := [wSensor]
    equipment := []
    weekdayOf := fun _ => 0
    dayOfYearOf := fun _ => 1 }

/-- A zero-sensor, single-equipment generator used as a small concrete
input. -/
def wGenEq : Generator :=
  { num_days := 1
    sensors := []
    equipment := [wEquip]
    weekdayOf := fun _ => 0
    dayOfYearOf := fun _ => 1 }

/-- A constant stand-in for the abstract seasonal sine function. -/
def wSn : ℕ → ℚ := fun _ => 0

/-! Helper lemmas. -/

theorem lowRand_valid : lowRand.Valid := by
  refine ⟨fun a b h => ⟨le_refl a, h⟩, ⟨le_refl 0, by norm_num [lowRand]⟩, fun l hl => ?_⟩
  cases l with
  | nil => exact absurd rfl hl
  | cons x t => simp [lowRand]

theorem lowQRand_valid : lowQRand.Valid :=
  fun a _ h => ⟨le_refl a, h⟩

theorem roundHalfEven_cases (q : ℚ) :
    roundHalfEven q = ⌊q⌋ ∨ roundHalfEven q = ⌊q⌋ + 1 := by
  unfold roundHalfEven
  split_ifs <;> simp

theorem le_roundHalfEven (n : ℤ) (q : ℚ) (h : (n : ℚ) ≤ q) :
    n ≤ roundHalfEven q := by
  have h1 : n ≤ ⌊q⌋ := Int.le_floor.mpr h
  rcases roundHalfEven_cases q with h2 | h2 <;> omega

theorem roundHalfEven_le (n : ℤ) (q : ℚ) (h : q ≤ (n : ℚ)) :
    roundHalfEven q ≤ n := by
  rcases eq_or_lt_of_le h with h1 | h1
  · have hf : ⌊q⌋ = n := by rw [h1]; exact Int.floor_intCast n
    have : q - ⌊q⌋ < 1/2 := by rw [hf, ← h1]; norm_num
    unfold roundHalfEven
    rw [if_pos this, hf]
  · have h2 : ⌊q⌋ < n := Int.floor_lt.mpr h1
    rcases roundHalfEven_cases q with h3 | h3 <;> omega

theorem pyRound3_bounds (q : ℚ) (h1 : 1/10 ≤ q) (h2 : q ≤ 1) :
    1/10 ≤ pyRound 3 q ∧ pyRound 3 q ≤ 1 := by
  have hl : (100 : ℤ) ≤ roundHalfEven (q * 1000) :=
    le_roundHalfEven 100 _ (by push_cast; linarith)
  have hh : roundHalfEven (q * 1000) ≤ 1000 :=
    roundHalfEven_le 1000 _ (by push_cast; linarith)
  have hl' : (100 : ℚ) ≤ (roundHalfEven (q * 1000) : ℚ) := by exact_mod_cast hl
  have hh' : ((roundHalfEven (q * 1000) : ℚ)) ≤ 1000 := by exact_mod_cast hh
  unfold pyRound
  norm_num
  constructor <;> linarith

theorem length_flatMap_const {α β : Type} (l : List α) (f : α → List β) (c : ℕ)
    (h : ∀ a ∈ l, (f a).length = c) : (l.flatMap f).length = l.length * c := by
  induction l with
  | nil => simp
  | cons x t ih =>
      have hx := h x (List.mem_cons_self x t)
      have ht := ih fun a ha => h a (List.mem_cons_of_mem x ha)
      simp only [List.flatMap_cons, List.length_append, List.length_cons, hx, ht,
        Nat.succ_mul]
      omega

theorem generate_sensor_data_length (g : Generator) (sn : ℕ → ℚ)
    (rand : ℕ → ℕ → ℕ → Rand) (records_per_day : ℕ)
    (h : 1440 / records_per_day ≠ 0) :
    ∃ l, generate_sensor_data g sn rand records_per_day = some l ∧
      l.length =
        g.num_days * pyRangeLen 1440 (1440 / records_per_day) * g.sensors.length := by
  refine ⟨(List.range g.num_days).flatMap fun day =>
      (List.range' 0 (pyRangeLen 1440 (1440 / records_per_day))
          (1440 / records_per_day)).flatMap fun minute =>
        g.sensors.enum.map fun p =>
          makeReading sn (rand day minute p.1) p.2 (mkTimestamp g day minute),
    ?_, ?_⟩
  · unfold generate_sensor_data
    rw [if_neg h]
  · rw [length_flatMap_const _ _
      (pyRangeLen 1440 (1440 / records_per_day) * g.sensors.length) ?_,
      List.length_range, Nat.mul_assoc]
    intro day _
    rw [length_flatMap_const _ _ g.sensors.length ?_, List.length_range']
    intro minute _
    rw [List.length_map, List.enum_length]

theorem foldl_unique_mem {α : Type} (key : α → ℕ) (l : List α) :
    ∀ (acc : List ℕ) (a : ℕ), a ∈ acc →
      a ∈ l.foldl (fun acc x => if key x ∈ acc then acc else acc ++ [key x]) acc := by
  induction l with
  | nil => intro acc a ha; simpa using ha
  | cons x t ih =>
      intro acc a ha
      simp only [List.foldl_cons]
      apply ih
      by_cases hx : key x ∈ acc
      · simpa [hx] using ha
      · simp [hx, List.mem_append, ha]

theorem foldl_unique_covers {α : Type} (key : α → ℕ) (l : List α) :
    ∀ (acc : List ℕ) (a : α), a ∈ l →
      key a ∈ l.foldl (fun acc x => if key x ∈ acc then acc else acc ++ [key x]) acc := by
  induction l with
  | nil => intro acc a ha; simp at ha
  | cons x t ih =>
      intro acc a ha
      simp only [List.foldl_cons]
      rcases List.mem_cons.mp ha with h1 | h1
      · subst h1
        apply foldl_unique_mem
        by_cases hx : key a ∈ acc <;> simp [hx]
      · exact ih _ a h1

theorem foldl_unique_nodup {α : Type} (key : α → ℕ) (l : List α) :
    ∀ acc : List ℕ, acc.Nodup →
      (l.foldl (fun acc x => if key x ∈ acc then acc else acc ++ [key x]) acc).Nodup := by
  induction l with
  | nil => intro acc ha; simpa using ha
  | cons x t ih =>
      intro acc ha
      simp only [List.foldl_cons]
      apply ih
      by_cases hx : key x ∈ acc
      · simpa [hx] using ha
      · rw [if_neg hx]
        simp [List.nodup_append, ha, hx]

theorem uniqueDates_nodup (l : List SensorRecord) : (uniqueDates l).Nodup :=
  foldl_unique_nodup sensorDateKey l [] List.nodup_nil

theorem mem_uniqueDates (l : List SensorRecord) (rec : SensorRecord)
    (h : rec ∈ l) : sensorDateKey rec ∈ uniqueDates l :=
  foldl_unique_covers sensorDateKey l [] rec h

theorem flatMap_congr_mem {α β : Type} {l : List α} {f g : α → List β}
    (h : ∀ a ∈ l, f a = g a) : l.flatMap f = l.flatMap g := by
  induction l with
  | nil => simp
  | cons x t ih =>
      simp only [List.flatMap_cons, h x (List.mem_cons_self x t)]
      rw [ih fun a ha => h a (List.mem_cons_of_mem x ha)]

theorem flatMap_filter_perm {α : Type} (key : α → ℕ) (keys : List ℕ) :
    ∀ l : List α, keys.Nodup → (∀ x ∈ l, key x ∈ keys) →
      List.Perm (keys.flatMap fun d => l.filter fun x => key x = d) l := by
  induction keys with
  | nil =>
      intro l _ hcov
      cases l with
      | nil => simp
      | cons x t => exact absurd (hcov x (List.mem_cons_self x t)) (by simp)
  | cons d ds ih =>
      intro l hnd hcov
      have hd : d ∉ ds := (List.nodup_cons.mp hnd).1
      have hds : ds.Nodup := (List.nodup_cons.mp hnd).2
      have htail : ∀ e ∈ ds,
          (l.filter fun x => key x = e) =
            ((l.filter fun x => !decide (key x = d)).filter fun x => key x = e) := by
        intro e he
        have hed : ¬ e = d := fun hc => hd (hc ▸ he)
        rw [List.filter_filter]
        apply List.filter_congr
        intro x _
        by_cases hx : key x = e
        · simp [hx, hed]
        · simp [hx]
      have hcov' : ∀ x ∈ (l.filter fun x => !decide (key x = d)), key x ∈ ds := by
        intro x hx
        have hx1 : x ∈ l := List.mem_of_mem_filter hx
        have hx2 : ¬ key x = d := by
          have := List.of_mem_filter hx
          simpa using this
        rcases List.mem_cons.mp (hcov x hx1) with h1 | h1
        · exact absurd h1 hx2
        · exact h1
      have hperm2 : List.Perm
          (ds.flatMap fun e => l.filter fun x => key x = e)
          (l.filter fun x => !decide (key x = d)) := by
        rw [flatMap_congr_mem htail]
        exact ih _ hds hcov'
      have hsplit : ((d :: ds).flatMap fun e => l.filter fun x => key x = e) =
          (l.filter fun x => key x = d) ++
            (ds.flatMap fun e => l.filter fun x => key x = e) := by
        simp [List.flatMap_cons]
      rw [hsplit]
      exact (List.Perm.append_left _ hperm2).trans
        (List.filter_append_perm (fun x => decide (key x = d)) l)

theorem insertLog_perm (acc : List (ℕ × List LogEntry)) (d : ℕ) (log : LogEntry) :
    List.Perm ((insertLog acc d log).flatMap Prod.snd)
      (acc.flatMap Prod.snd ++ [log]) := by
  induction acc with
  | nil => simp [insertLog]
  | cons p t ih =>
      obtain ⟨k, grp⟩ := p
      by_cases hk : k = d
      · simp only [insertLog, if_pos hk, List.flatMap_cons, List.append_assoc]
        exact List.Perm.append_left grp List.perm_append_comm
      · simp only [insertLog, if_neg hk, List.flatMap_cons, List.append_assoc]
        exact List.Perm.append_left grp ih

theorem logsByDate_aux_perm (logs : List LogEntry) :
    ∀ acc : List (ℕ × List LogEntry),
      List.Perm
        ((logs.foldl (fun acc log => insertLog acc (logDateKey log) log) acc).flatMap
          Prod.snd)
        (acc.flatMap Prod.snd ++ logs) := by
  induction logs with
  | nil => intro acc; simp
  | cons x t ih =>
      intro acc
      simp only [List.foldl_cons]
      refine (ih (insertLog acc (logDateKey x) x)).trans ?_
      have h1 := insertLog_perm acc (logDateKey x) x
      refine (List.Perm.append_right t h1).trans ?_
      rw [List.append_assoc, List.singleton_append]

theorem quality_score_banded (r : Rand) (s : SensorConfig) (v : ℚ) (hr : r.Valid) :
    1/10 ≤ calculate_quality_score r s v ∧ calculate_quality_score r s v ≤ 1 := by
  obtain ⟨hu, -, -⟩ := hr
  unfold calculate_quality_score
  split_ifs with h1 h2
  · have := hu (95/100) 1 (by norm_num)
    constructor <;> linarith [this.1, this.2]
  · have := hu (7/10) (9/10) (by norm_num)
    constructor <;> linarith [this.1, this.2]
  · have := hu (1/10) (6/10) (by norm_num)
    constructor <;> linarith [this.1, this.2]

theorem makeReading_quality (sn : ℕ → ℚ) (r : Rand) (s : SensorConfig)
    (ts : Timestamp) (hr : r.Valid) :
    1/10 ≤ (makeReading sn r s ts).quality_score ∧
      (makeReading sn r s ts).quality_score ≤ 1 := by
  have hq : ∀ v : ℚ, 1/10 ≤ calculate_quality_score r s v ∧
      calculate_quality_score r s v ≤ 1 :=
    fun v => quality_score_banded r s v hr
  simp only [makeReading]
  exact pyRound3_bounds _ (hq _).1 (hq _).2

/-! The claims. -/

/-- C1: `_calculate_quality_score` selects the score band by
closed-interval comparison: a value within `[normal_min, normal_max]`
draws the score with `random.uniform(0.95, 1.0)`; otherwise a value
within `[alert_min, alert_max]` draws it with
`random.uniform(0.7, 0.9)`; any other value draws it with
`random.uniform(0.1, 0.6)`.  In particular a value exactly equal to
`normal_max` draws from the high band `[0.95, 1.0]`. -/
theorem C1_quality_banding (r : Rand) (s : SensorConfig) (v : ℚ) (hr : r.Valid) :
    ((s.normal_range.1 ≤ v ∧ v ≤ s.normal_range.2) →
      calculate_quality_score r s v = r.uniform (95/100) 1 ∧
      95/100 ≤ calculate_quality_score r s v ∧
      calculate_quality_score r s v ≤ 1) ∧
    (¬ (s.normal_range.1 ≤ v ∧ v ≤ s.normal_range.2) →
      (s.alert_threshold.1 ≤ v ∧ v ≤ s.alert_threshold.2) →
      calculate_quality_score r s v = r.uniform (7/10) (9/10) ∧
      7/10 ≤ calculate_quality_score r s v ∧
      calculate_quality_score r s v ≤ 9/10) ∧
    (¬ (s.normal_range.1 ≤ v ∧ v ≤ s.normal_range.2) →
      ¬ (s.alert_threshold.1 ≤ v ∧ v ≤ s.alert_threshold.2) →
      calculate_quality_score r s v = r.uniform (1/10) (6/10) ∧
      1/10 ≤ calculate_quality_score r s v ∧
      calculate_quality_score r s v ≤ 6/10) ∧
    (v = s.normal_range.2 → s.normal_range.1 ≤ s.normal_range.2 →
      95/100 ≤ calculate_quality_score r s v ∧
      calculate_quality_score r s v ≤ 1) := by
  obtain ⟨hu, -, -⟩ := hr
  refine ⟨fun h => ?_, fun h1 h2 => ?_, fun h1 h2 => ?_, fun h1 h2 => ?_⟩
  · rw [calculate_quality_score, if_pos h]
    have := hu (95/100) 1 (by norm_num)
    exact ⟨rfl, this.1, this.2⟩
  · rw [calculate_quality_score, if_neg h1, if_pos h2]
    have := hu (7/10) (9/10) (by norm_num)
    exact ⟨rfl, this.1, this.2⟩
  · rw [calculate_quality_score, if_neg h1, if_neg h2]
    have := hu (1/10) (6/10) (by norm_num)
    exact ⟨rfl, this.1, this.2⟩
  · rw [calculate_quality_score, if_pos ⟨h1 ▸ h2, h1 ▸ le_refl v⟩]
    have := hu (95/100) 1 (by norm_num)
    exact ⟨this.1, this.2⟩

/-- Witness for C1: the `TEMP_001` sensor with the value exactly at
`normal_max = 25` draws the score with `random.uniform(0.95, 1.0)`. -/
theorem C1_quality_banding_witness :
    calculate_quality_score lowRand wSensor 25 = lowRand.uniform (95/100) 1 ∧
    95/100 ≤ calculate_quality_score lowRand wSensor 25 ∧
    calculate_quality_score lowRand wSensor 25 ≤ 1 :=
  (C1_quality_banding lowRand wSensor 25 lowRand_valid).1
    (by norm_num [wSensor])

/-- C2: in `generate_sensor_data`, when `random.random()` falls below
the sensor's `error_rate` the reading's value is replaced by
`base_value * f` with `f` drawn by `random.choice([-2, -1.5, 1.5, 2])`,
`is_anomaly` is `True` and `status` is `"error"`; otherwise the value
keeps its noise term, `is_anomaly` is `False` and `status` is
`"normal"`.  In particular `status = "error"` holds iff `is_anomaly`
holds. -/
theorem C2_anomaly_injection (sn : ℕ → ℚ) (r : Rand) (s : SensorConfig)
    (ts : Timestamp) (hr : r.Valid) :
    (r.roll < s.error_rate →
      (makeReading sn r s ts).is_anomaly = true ∧
      (makeReading sn r s ts).status = "error" ∧
      ∃ f ∈ ([-2, -(3/2), 3/2, 2] : List ℚ),
        (makeReading sn r s ts).value =
          pyRound 3 (generate_realistic_value sn r s ts * f)) ∧
    (¬ r.roll < s.error_rate →
      (makeReading sn r s ts).is_anomaly = false ∧
      (makeReading sn r s ts).status = "normal" ∧
      (makeReading sn r s ts).value =
        pyRound 3 (generate_realistic_value sn r s ts + r.normalDraw)) ∧
    ((makeReading sn r s ts).status = "error" ↔
      (makeReading sn r s ts).is_anomaly = true) := by
  obtain ⟨-, -, hc⟩ := hr
  refine ⟨fun h => ?_, fun h => ?_, ?_⟩
  · refine ⟨by simp [makeReading, h], by simp [makeReading, h],
      r.choice [-2, -(3/2), 3/2, 2], hc _ (by simp), by simp [makeReading, h]⟩
  · exact ⟨by simp [makeReading, h], by simp [makeReading, h],
      by simp [makeReading, h]⟩
  · by_cases h : r.roll < s.error_rate <;> simp [makeReading, h]

/-- Witness for C2: with an oracle whose roll is 0 and the `TEMP_001`
sensor (error rate 0.02) the anomalous branch is taken. -/
theorem C2_anomaly_injection_witness :
    lowRand.roll < wSensor.error_rate ∧
    (makeReading wSn lowRand wSensor (mkTimestamp wGen 0 0)).is_anomaly = true ∧
    (makeReading wSn lowRand wSensor (mkTimestamp wGen 0 0)).status = "error" ∧
    ∃ f ∈ ([-2, -(3/2), 3/2, 2] : List ℚ),
      (makeReading wSn lowRand wSensor (mkTimestamp wGen 0 0)).value =
        pyRound 3
          (generate_realistic_value wSn lowRand wSensor (mkTimestamp wGen 0 0) * f) :=
  ⟨by norm_num [lowRand, wSensor],
    (C2_anomaly_injection wSn lowRand wSensor (mkTimestamp wGen 0 0)
      lowRand_valid).1 (by norm_num [lowRand, wSensor])⟩

/-- C3: with `records_per_day = 1440` and `num_days = 1`,
`generate_sensor_data` returns a table of exactly
`1440 * number_of_sensors` rows; with the built-in sensor table that
is `1440 * 5 = 7200`. -/
theorem C3_sensor_row_count (g : Generator) (sn : ℕ → ℚ)
    (rand : ℕ → ℕ → ℕ → Rand) (h1 : g.num_days = 1) :
    ∃ l, generate_sensor_data g sn rand 1440 = some l ∧
      l.length = 1440 * g.sensors.length ∧
      (g.sensors = create_sensor_config → l.length = 7200) := by
  obtain ⟨l, hl, hlen⟩ := generate_sensor_data_length g sn rand 1440 (by norm_num)
  refine ⟨l, hl, ?_, ?_⟩
  · rw [hlen, h1]
    norm_num [pyRangeLen]
  · intro hs
    rw [hlen, h1, hs]
    norm_num [pyRangeLen, create_sensor_config]

/-- Witness for C3: the single-sensor generator over one day. -/
theorem C3_sensor_row_count_witness :
    ∃ l, generate_sensor_data wGen wSn (fun _ _ _ => lowRand) 1440 = some l ∧
      l.length = 1440 * wGen.sensors.length ∧
      (wGen.sensors = create_sensor_config → l.length = 7200) :=
  C3_sensor_row_count wGen wSn (fun _ _ _ => lowRand) rfl

/-- C4: `generate_equipment_logs` returns exactly
`num_days * number_of_equipment * logs_per_day` entries; with
`num_days = 2`, the 5 built-in equipment configs and
`logs_per_day = 10` that is `2 * 5 * 10 = 100`. -/
theorem C4_log_count (g : Generator) (rand : ℕ → ℕ → ℕ → LogRand)
    (logs_per_day : ℕ) :
    (generate_equipment_logs g rand logs_per_day).length =
      g.num_days * g.equipment.length * logs_per_day ∧
    (g.num_days = 2 → g.equipment = create_equipment_config →
      (generate_equipment_logs g rand 10).length = 100) := by
  have key : ∀ m, (generate_equipment_logs g rand m).length =
      g.num_days * g.equipment.length * m := by
    intro m
    unfold generate_equipment_logs
    rw [length_flatMap_const _ _ (g.equipment.length * m) ?_,
      List.length_range, Nat.mul_assoc]
    intro day _
    rw [length_flatMap_const _ _ m ?_, List.enum_length]
    intro p _
    rw [List.length_map, List.length_range]
  refine ⟨key logs_per_day, fun h2 he => ?_⟩
  rw [key 10, h2, he]
  rfl

/-- Witness for C4: the built-in generator over two days with ten logs
per day per equipment yields 100 entries. -/
theorem C4_log_count_witness :
    (generate_equipment_logs (mkGenerator 2 (fun _ => 0) (fun _ => 1))
        (fun _ _ _ => lowLogRand) 10).length = 100 :=
  (C4_log_count (mkGenerator 2 (fun _ => 0) (fun _ => 1))
    (fun _ _ _ => lowLogRand) 10).2 rfl rfl

/-- C5: `_generate_realistic_value` composes its adjustments in
source order: a base draw `random.uniform(normal_min, normal_max)`;
for temperature sensors with hour-of-day in `[6, 18]` a further
`random.uniform(1, 3)` added; a factor `0.95` applied to the
accumulated value when the weekday index is at least 5; and for
temperature sensors the seasonal term `2 * sin(2*pi*day_of_year/365)`
added last (so the weekend factor does not scale it). -/
theorem C5_value_pipeline (sn : ℕ → ℚ) (r : Rand) (s : SensorConfig)
    (ts : Timestamp) :
    (s.sensorType = SensorType.temperature →
      (6 ≤ ts.hour ∧ ts.hour ≤ 18) → 5 ≤ ts.weekday →
      generate_realistic_value sn r s ts =
        (r.uniform s.normal_range.1 s.normal_range.2 + r.uniform 1 3) * (95/100) +
          2 * sn ts.dayOfYear) ∧
    (s.sensorType = SensorType.temperature →
      (6 ≤ ts.hour ∧ ts.hour ≤ 18) → ¬ 5 ≤ ts.weekday →
      generate_realistic_value sn r s ts =
        r.uniform s.normal_range.1 s.normal_range.2 + r.uniform 1 3 +
          2 * sn ts.dayOfYear) ∧
    (s.sensorType = SensorType.temperature →
      ¬ (6 ≤ ts.hour ∧ ts.hour ≤ 18) → 5 ≤ ts.weekday →
      generate_realistic_value sn r s ts =
        r.uniform s.normal_range.1 s.normal_range.2 * (95/100) +
          2 * sn ts.dayOfYear) ∧
    (s.sensorType = SensorType.temperature →
      ¬ (6 ≤ ts.hour ∧ ts.hour ≤ 18) → ¬ 5 ≤ ts.weekday →
      generate_realistic_value sn r s ts =
        r.uniform s.normal_range.1 s.normal_range.2 + 2 * sn ts.dayOfYear) ∧
    (¬ s.sensorType = SensorType.temperature → 5 ≤ ts.weekday →
      generate_realistic_value sn r s ts =
        r.uniform s.normal_range.1 s.normal_range.2 * (95/100)) ∧
    (¬ s.sensorType = SensorType.temperature → ¬ 5 ≤ ts.weekday →
      generate_realistic_value sn r s ts =
        r.uniform s.normal_range.1 s.normal_range.2) := by
  refine ⟨fun hT hd hw => ?_, fun hT hd hw => ?_, fun hT hd hw => ?_,
    fun hT hd hw => ?_, fun hT hw => ?_, fun hT hw => ?_⟩
  · simp [generate_realistic_value, hT, hd, hw]
  · simp [generate_realistic_value, hT, hd, hw]
  · simp [generate_realistic_value, hT, hd, hw]
  · simp [generate_realistic_value, hT, hd, hw]
  · simp [generate_realistic_value, hT, hw]
  · simp [generate_realistic_value, hT, hw]

/-- Witness for C5: `TEMP_001` at noon of a weekend day. -/
theorem C5_value_pipeline_witness :
    generate_realistic_value wSn lowRand wSensor
        { date := 0, hour := 12, minute := 0, weekday := 6, dayOfYear := 100 } =
      (lowRand.uniform wSensor.normal_range.1 wSensor.normal_range.2 +
          lowRand.uniform 1 3) * (95/100) + 2 * wSn 100 :=
  (C5_value_pipeline wSn lowRand wSensor
      { date := 0, hour := 12, minute := 0, weekday := 6, dayOfYear := 100 }).1
    rfl ⟨by norm_num, by norm_num⟩ (by norm_num)

/-- C6: every row produced by `generate_sensor_data` has a (rounded)
`quality_score` in the closed interval `[0.1, 1.0]`. -/
theorem C6_quality_score_range (g : Generator) (sn : ℕ → ℚ)
    (rand : ℕ → ℕ → ℕ → Rand) (records_per_day : ℕ) (l : List SensorRecord)
    (hv : ∀ d m si, (rand d m si).Valid)
    (hl : generate_sensor_data g sn rand records_per_day = some l) :
    ∀ rec ∈ l, 1/10 ≤ rec.quality_score ∧ rec.quality_score ≤ 1 := by
  unfold generate_sensor_data at hl
  by_cases hstep : 1440 / records_per_day = 0
  · rw [if_pos hstep] at hl
    cases hl
  · rw [if_neg hstep] at hl
    injection hl with hl
    subst hl
    intro rec hrec
    simp only [List.mem_flatMap, List.mem_map] at hrec
    obtain ⟨day, -, minute, -, p, -, rfl⟩ := hrec
    exact makeReading_quality sn (rand day minute p.1) p.2
      (mkTimestamp g day minute) (hv day minute p.1)

/-- Witness for C6: the single reading generated by the single-sensor
generator at one record per day. -/
theorem C6_quality_score_range_witness :
    1/10 ≤ (makeReading wSn lowRand wSensor (mkTimestamp wGen 0 0)).quality_score ∧
      (makeReading wSn lowRand wSensor (mkTimestamp wGen 0 0)).quality_score ≤ 1 :=
  C6_quality_score_range wGen wSn (fun _ _ _ => lowRand) 1
    [makeReading wSn lowRand wSensor (mkTimestamp wGen 0 0)]
    (fun _ _ _ => lowRand_valid) rfl
    (makeReading wSn lowRand wSensor (mkTimestamp wGen 0 0))
    (List.mem_singleton_self _)

/-- Supporting result for C7: the partitioning that `save_data`
intends — the per-date sensor groups of lines 352-357 and the
`logs_by_date` dict of lines 366-371 — is lossless: concatenating the
groups gives a permutation of the unpartitioned dataset (no row
duplicated or dropped).  In the program neither path runs: `save_data`
raises at line 352 (see the C7 theorem below). -/
theorem partition_alg_lossless (df : List SensorRecord) (logs : List LogEntry) :
    List.Perm (sensorPartition df).flatten df ∧
    List.Perm ((logsByDate logs).flatMap Prod.snd) logs := by
  constructor
  · have h := flatMap_filter_perm sensorDateKey (uniqueDates df) df
      (uniqueDates_nodup df) (fun x hx => mem_uniqueDates df x hx)
    have heq : (sensorPartition df).flatten =
        (uniqueDates df).flatMap fun d => df.filter fun x => sensorDateKey x = d := by
      rw [sensorPartition, List.flatMap_def]
    rw [heq]
    exact h
  · have h := logsByDate_aux_perm logs []
    simpa [logsByDate] using h

/-- C7 (code bug): `save_data` cannot partition by date at all.  Line
152 stored the timestamp column as strings, so evaluating
`sensor_df['timestamp'].dt.date` (line 352) raises `AttributeError`
for every nonempty sensor DataFrame, before any per-date sensor or
log file is written.  The lossless-partition property the spec states
— and which the partition logic itself would satisfy, see
`partition_alg_lossless` — never gets to run. -/
theorem C7_partition_crashes (df : List SensorRecord) (h : df ≠ []) :
    save_data_sensor_partition df =
      Except.error
        "AttributeError: Can only use .dt accessor with datetimelike values" := by
  cases df with
  | nil => exact absurd rfl h
  | cons x t =>
      simp [save_data_sensor_partition, seriesDtDate, sensorTimestampColumn,
        PdValue.isDatetime]

/-- Witness for C7: the one-row DataFrame produced by the
single-sensor generator already triggers the error. -/
theorem C7_partition_crashes_witness :
    save_data_sensor_partition
        [makeReading wSn lowRand wSensor (mkTimestamp wGen 0 0)] =
      Except.error
        "AttributeError: Can only use .dt accessor with datetimelike values" :=
  C7_partition_crashes [makeReading wSn lowRand wSensor (mkTimestamp wGen 0 0)]
    (by simp)

/-- C9: a `records_per_day` larger than 1440 makes the integer step
`1440 // records_per_day` zero, so the per-day minute loop
`range(0, 1440, 0)` raises and `generate_sensor_data` produces no
DataFrame. -/
theorem C9_zero_step_error (g : Generator) (sn : ℕ → ℚ)
    (rand : ℕ → ℕ → ℕ → Rand) (records_per_day : ℕ)
    (h : 1440 < records_per_day) :
    generate_sensor_data g sn rand records_per_day = none := by
  have h0 : 1440 / records_per_day = 0 := Nat.div_eq_of_lt h
  simp [generate_sensor_data, h0]

/-- Witness for C9: `records_per_day = 1441`. -/
theorem C9_zero_step_error_witness :
    1440 < 1441 ∧
      generate_sensor_data wGen wSn (fun _ _ _ => lowRand) 1441 = none :=
  ⟨by norm_num,
    C9_zero_step_error wGen wSn (fun _ _ _ => lowRand) 1441 (by norm_num)⟩

/-- C10: every quality metric has `last_maintenance_date` strictly
before and `next_maintenance_date` strictly after the record's date,
each offset by 1 to 30 days. -/
theorem C10_maintenance_dates (g : Generator) (rand : ℕ → ℕ → QRand)
    (hv : ∀ d e, (rand d e).Valid) :
    ∀ m ∈ generate_quality_metrics g rand,
      m.last_maintenance_date < m.date ∧ m.date < m.next_maintenance_date ∧
      1 ≤ m.date - m.last_maintenance_date ∧
      m.date - m.last_maintenance_date ≤ 30 ∧
      1 ≤ m.next_maintenance_date - m.date ∧
      m.next_maintenance_date - m.date ≤ 30 := by
  intro m hm
  unfold generate_quality_metrics at hm
  simp only [List.mem_flatMap, List.mem_map] at hm
  obtain ⟨day, -, p, -, rfl⟩ := hm
  obtain ⟨h1, h2⟩ := hv day p.1 1 30 (by norm_num)
  simp only [makeQualityMetric]
  omega

/-- Witness for C10: the single metric generated by the
single-equipment generator. -/
theorem C10_maintenance_dates_witness :
    (makeQualityMetric lowQRand wEquip 0).last_maintenance_date <
        (makeQualityMetric lowQRand wEquip 0).date ∧
      (makeQualityMetric lowQRand wEquip 0).date <
        (makeQualityMetric lowQRand wEquip 0).next_maintenance_date ∧
      1 ≤ (makeQualityMetric lowQRand wEquip 0).date -
        (makeQualityMetric lowQRand wEquip 0).last_maintenance_date ∧
      (makeQualityMetric lowQRand wEquip 0).date -
        (makeQualityMetric lowQRand wEquip 0).last_maintenance_date ≤ 30 ∧
      1 ≤ (makeQualityMetric lowQRand wEquip 0).next_maintenance_date -
        (makeQualityMetric lowQRand wEquip 0).date ∧
      (makeQualityMetric lowQRand wEquip 0).next_maintenance_date -
        (makeQualityMetric lowQRand wEquip 0).date ≤ 30 :=
  C10_maintenance_dates wGenEq (fun _ _ => lowQRand) (fun _ _ => lowQRand_valid)
    (makeQualityMetric lowQRand wEquip 0)
    (show makeQualityMetric lowQRand wEquip 0 ∈
        [makeQualityMetric lowQRand wEquip 0] from List.mem_singleton_self _)

/-- C8 counterexample: with `records_per_day = 7`, which does not
divide 1440, `generate_sensor_data` on the built-in generator does not
fail: it silently returns a table (here 40 rows: 8 timestamps per day
for the 5 sensors, although 7 readings per day were requested, since
`range(0, 1440, 1440 // 7)` has 8 elements). -/
theorem C8_counterexample :
    (generate_sensor_data (mkGenerator 1 (fun _ => 0) (fun _ => 1)) wSn
        (fun _ _ _ => lowRand) 7).map List.length = some 40 ∧
      (40 : ℕ) ≠ 7 * 5 := by
  exact ⟨rfl, by norm_num⟩

/-- C8 (amended): the code contains no input validation.  A
`records_per_day` that does not evenly divide 1440 (but is at most
1440) is accepted silently: the day is sampled at
`ceil(1440 / (1440 // records_per_day))` timestamps — e.g. 8 instead
of the requested 7 — rather than raising an input-validation error.
(A malformed `start_date` is rejected by `pd.to_datetime` inside the
pandas library, outside this repository's code.) -/
theorem C8_no_input_validation (g : Generator) (sn : ℕ → ℚ)
    (rand : ℕ → ℕ → ℕ → Rand) (h1 : g.num_days = 1) :
    ∃ l, generate_sensor_data g sn rand 7 = some l ∧
      l.length = 8 * g.sensors.length := by
  obtain ⟨l, hl, hlen⟩ := generate_sensor_data_length g sn rand 7 (by norm_num)
  refine ⟨l, hl, ?_⟩
  rw [hlen, h1]
  norm_num [pyRangeLen]

/-- Witness for the amended C8: the single-sensor generator. -/
theorem C8_no_input_validation_witness :
    ∃ l, generate_sensor_data wGen wSn (fun _ _ _ => lowRand) 7 = some l ∧
      l.length = 8 * wGen.sensors.length :=
  C8_no_input_validation wGen wSn (fun _ _ _ => lowRand) rfl

end DataGenerator
